import Mathlib

/-
  Verification development for `oracles/src/domain/llm/openai_structured_llm.py`.

  The module is a thin adapter around a remote chat-completion endpoint:

    @backoff.on_exception(backoff.expo,
        (openai.RateLimitError, openai.APITimeoutError), max_tries=3)
    async def execute(chat, output_model=None) -> Optional[ChatCompletion]

  We embed the adapter shallowly: the remote transport becomes an explicit
  oracle function from the attempt number and the outgoing request to either
  a completion or an API error; the `backoff` decorator becomes a fuel-indexed
  retry loop with `max_tries = 3`; opaque external values (schema descriptors,
  parsed pydantic objects, tool declarations) are carried as strings, since the
  adapter only passes them through and never inspects their structure.
-/

namespace OpenAIStructuredLLM

/-- A role-tagged chat message entry, as carried in `chat.messages`. -/
structure Message where
  role : String
  content : String
  deriving DecidableEq, Repr

/-- The configuration bundle `chat.config` of the caller's conversation:
exactly the fields the adapter reads and forwards.  Numeric sampling and
penalty parameters are carried opaquely as integers; the adapter never
computes with them, it only forwards them. -/
structure Config where
  model : String
  frequency_penalty : Option Int
  logit_bias : List (String × Int)
  max_tokens : Option Nat
  presence_penalty : Option Int
  response_format : Option String
  seed : Option Int
  temperature : Option Int
  top_p : Option Int
  tools : Option (List String)
  tool_choice : Option String
  user : Option String
  deriving DecidableEq, Repr

/-- The caller's conversation object (`Chat` in `src.entities`): an ordered
message sequence plus the configuration bundle. -/
structure Chat where
  messages : List Message
  config : Config
  deriving DecidableEq, Repr

/-- A caller-supplied structural descriptor (`Type[BaseModel]`), carried
opaquely: the adapter forwards it as the request response format and never
looks inside. -/
abbrev OutputSchema := String

/-- A schema-typed parsed object (`message.parsed`), carried opaquely. -/
abbrev ParsedObject := String

/-- The message of one response choice: `content` is the textual content
(`None` or a string), `tool_calls` is `None` or a list of tool invocations,
`parsed` is the structured-output field (`None` or a parsed object). -/
structure ChoiceMessage where
  content : Option String
  tool_calls : Option (List String)
  parsed : Option ParsedObject
  deriving DecidableEq, Repr

/-- One choice of a completion response. -/
structure Choice where
  message : ChoiceMessage
  deriving DecidableEq, Repr

/-- The completion envelope (`ChatCompletion`) returned by the remote
service: the choice list is the only part the adapter inspects. -/
structure ChatCompletion where
  choices : List Choice
  deriving DecidableEq, Repr

/-- The `response_format` field of an outgoing request: either the
conversation configuration's own response-format hint (the `create` path)
or a caller-supplied schema descriptor (the `parse` path). -/
inductive RespFormat where
  | hint (h : Option String)
  | schema (s : OutputSchema)
  deriving DecidableEq, Repr

/-- The outgoing remote request: one field per keyword argument the adapter
passes to `client.chat.completions.create` / `.parse`. -/
structure Request where
  messages : List Message
  model : String
  frequency_penalty : Option Int
  logit_bias : List (String × Int)
  max_tokens : Option Nat
  presence_penalty : Option Int
  response_format : RespFormat
  seed : Option Int
  temperature : Option Int
  top_p : Option Int
  tools : Option (List String)
  tool_choice : Option String
  user : Option String
  deriving DecidableEq, Repr

/-- Builds the outgoing request from the conversation, mirroring the two
keyword-argument lists in `execute`: both paths forward every `chat.config`
field unchanged, except that the `parse` path passes
`response_format=output_model` while the `create` path passes
`response_format=chat.config.response_format`. -/
def buildRequest (chat : Chat) (output_model : Option OutputSchema) : Request :=
  { messages := chat.messages
    model := chat.config.model
    frequency_penalty := chat.config.frequency_penalty
    logit_bias := chat.config.logit_bias
    max_tokens := chat.config.max_tokens
    presence_penalty := chat.config.presence_penalty
    response_format :=
      match output_model with
      | some m => RespFormat.schema m
      | none => RespFormat.hint chat.config.response_format
    seed := chat.config.seed
    temperature := chat.config.temperature
    top_p := chat.config.top_p
    tools := chat.config.tools
    tool_choice := chat.config.tool_choice
    user := chat.config.user }

/-- Errors raised by the remote transport step (the awaited client call):
`rateLimit` is `openai.RateLimitError`, `apiTimeout` is
`openai.APITimeoutError`, `other` is any other remote/transport error. -/
inductive ApiError where
  | rateLimit
  | apiTimeout
  | other (msg : String)
  deriving DecidableEq, Repr

/-- Errors observable from one attempt of `execute`: a transport error, the
failure of the `assert` on content/tool calls (the spec's
`InvalidResponseError`, an `AssertionError` in the source), or the
`IndexError` from `choices[0]` on an empty choice list. -/
inductive ExecError where
  | api (e : ApiError)
  | invalidResponse
  | indexError
  deriving DecidableEq, Repr

/-- A successful result of `execute`: the raw completion envelope (no schema
supplied) or the `parsed` field of the first choice's message (schema
supplied), which the source's `Optional` return type allows to be `None`. -/
inductive ExecValue where
  | envelope (completion : ChatCompletion)
  | parsedObj (p : Option ParsedObject)
  deriving DecidableEq, Repr

/-- Python truthiness of `message.content : Optional[str]`: falsy when
`None` or the empty string. -/
def contentTruthy : Option String → Bool
  | none => false
  | some s => decide (s ≠ "")

/-- Python truthiness of `message.tool_calls : Optional[list]`: falsy when
`None` or the empty list. -/
def toolCallsTruthy : Option (List String) → Bool
  | none => false
  | some l => decide (l ≠ [])

/-- The remote transport oracle: given the attempt number (1-based) and the
outgoing request, the awaited client call either returns a completion or
raises an API error.  Making the attempt number an argument lets one
transport behave differently across retries. -/
abbrev Transport := Nat → Request → Except ApiError ChatCompletion

/-- One attempt of the body of `execute` (the function `backoff` wraps):
build the request, await the transport, then run the source in order: the
`assert` line first indexes `choices[0]` (an `IndexError` on an empty list),
then checks `content or tool_calls` (an `AssertionError` if both falsy), and
finally the result is `choices[0].message.parsed` when a schema was supplied
and the whole envelope otherwise. -/
def executeAttempt (send : Request → Except ApiError ChatCompletion)
    (chat : Chat) (output_model : Option OutputSchema) :
    Except ExecError ExecValue :=
  match send (buildRequest chat output_model) with
  | .error e => .error (.api e)
  | .ok chat_completion =>
    match chat_completion.choices with
    | [] => .error .indexError
    | c :: _ =>
      if contentTruthy c.message.content || toolCallsTruthy c.message.tool_calls then
        match output_model with
        | some _ => .ok (.parsedObj c.message.parsed)
        | none => .ok (.envelope chat_completion)
      else .error .invalidResponse

/-- The exception predicate of the `backoff.on_exception` decorator: only
`openai.RateLimitError` and `openai.APITimeoutError` are retried. -/
def retryable : ExecError → Bool
  | .api .rateLimit => true
  | .api .apiTimeout => true
  | _ => false

/-- The retry loop of `backoff.on_exception(backoff.expo, ..., max_tries=3)`:
`attempt` is the 1-based number of the current try and `fuel` counts the
tries still allowed, this one included.  A success returns at once; a
retryable error is retried while fuel remains; any other error is raised.
The returned number is the attempt on which the loop stopped, i.e. the total
number of transport attempts made. -/
def backoffGo (f : Nat → Except ExecError ExecValue) :
    Nat → Nat → Except ExecError ExecValue × Nat
  | attempt, 0 => (f attempt, attempt)
  | attempt, fuel + 1 =>
    match f attempt with
    | .ok v => (.ok v, attempt)
    | .error e =>
      if retryable e && fuel != 0 then backoffGo f (attempt + 1) fuel
      else (.error e, attempt)

/-- `max_tries=3` of the decorator: at most three calls in total. -/
def MAX_TRIES : Nat := 3

/-- The decorated `execute`: the retry loop around `executeAttempt`, starting
at attempt 1 with `MAX_TRIES` total tries allowed.  Returns the final outcome
together with the number of transport attempts made. -/
def execute (transport : Transport) (chat : Chat)
    (output_model : Option OutputSchema) : Except ExecError ExecValue × Nat :=
  backoffGo (fun attempt => executeAttempt (transport attempt) chat output_model)
    1 MAX_TRIES

/-- State-passing form of the retry loop: the caller's conversation object is
threaded through every step as explicit state, mirroring that no statement of
the source assigns to `chat` or to any of its fields. -/
def backoffGoSt (transport : Transport) (output_model : Option OutputSchema) :
    Chat → Nat → Nat → (Except ExecError ExecValue × Nat) × Chat
  | chat, attempt, 0 => ((executeAttempt (transport attempt) chat output_model, attempt), chat)
  | chat, attempt, fuel + 1 =>
    match executeAttempt (transport attempt) chat output_model with
    | .ok v => ((.ok v, attempt), chat)
    | .error e =>
      if retryable e && fuel != 0 then backoffGoSt transport output_model chat (attempt + 1) fuel
      else ((.error e, attempt), chat)

/-- State-passing form of `execute`: returns the outcome, the attempt count,
and the conversation object as left behind by the call. -/
def executeSt (transport : Transport) (chat : Chat)
    (output_model : Option OutputSchema) :
    (Except ExecError ExecValue × Nat) × Chat :=
  backoffGoSt transport output_model chat 1 MAX_TRIES

/-- The value a validated response yields: the first choice's `parsed` field
when a schema was supplied, the whole envelope otherwise. -/
def okValue (output_model : Option OutputSchema) (comp : ChatCompletion)
    (c : Choice) : ExecValue :=
  match output_model with
  | some _ => .parsedObj c.message.parsed
  | none => .envelope comp

/- Concrete example data used by witnesses. -/

/-- Example configuration bundle with a response-format hint of its own. -/
def cfgEx : Config :=
  { model := "gpt-4o"
    frequency_penalty := some 0
    logit_bias := []
    max_tokens := some 256
    presence_penalty := some 0
    response_format := some "json_object"
    seed := some 7
    temperature := some 1
    top_p := some 1
    tools := some ["get_weather"]
    tool_choice := some "auto"
    user := some "u1" }

/-- Example conversation. -/
def chatEx : Chat :=
  { messages := [{ role := "user", content := "hi" }], config := cfgEx }

/-- Example valid response: one choice whose message has textual content. -/
def compHello : ChatCompletion :=
  { choices := [{ message := { content := some "hello", tool_calls := none, parsed := none } }] }

/-- Example invalid response: the first choice has empty content and an
empty tool-call list. -/
def compEmptyMsg : ChatCompletion :=
  { choices := [{ message := { content := some "", tool_calls := some [], parsed := none } }] }

/-- Example response with no choices at all. -/
def compNoChoices : ChatCompletion := { choices := [] }

/-- Example response whose first choice carries tool calls but whose
`parsed` field is `None`. -/
def compToolsNoParsed : ChatCompletion :=
  { choices := [{ message := { content := none, tool_calls := some ["call_1"], parsed := none } }] }

/-- Transport that always succeeds with `compHello`. -/
def transportOk : Transport := fun _ _ => .ok compHello

/-- Transport that always succeeds with `compEmptyMsg`. -/
def transportEmptyMsg : Transport := fun _ _ => .ok compEmptyMsg

/-- Transport that always succeeds with `compNoChoices`. -/
def transportNoChoices : Transport := fun _ _ => .ok compNoChoices

/-- Transport that always succeeds with `compToolsNoParsed`. -/
def transportToolsNoParsed : Transport := fun _ _ => .ok compToolsNoParsed

/-- Transport that rate-limits every attempt. -/
def transportAlwaysRL : Transport := fun _ _ => .error .rateLimit

/-- Transport that rate-limits attempts 1 and 2 and succeeds on attempt 3. -/
def transportRLThenOk : Transport := fun attempt _ =>
  if attempt ≤ 2 then .error .rateLimit else .ok compHello

/-- Transport that fails at once with a non-retryable error. -/
def transportBadRequest : Transport := fun _ _ => .error (.other "bad request")

/- Helper lemmas about one attempt and about the retry loop. -/

lemma executeAttempt_of_error {send : Request → Except ApiError ChatCompletion}
    {chat : Chat} {om : Option OutputSchema} {e : ApiError}
    (h : send (buildRequest chat om) = .error e) :
    executeAttempt send chat om = .error (.api e) := by
  simp [executeAttempt, h]

lemma executeAttempt_of_ok_empty {send : Request → Except ApiError ChatCompletion}
    {chat : Chat} {om : Option OutputSchema} {comp : ChatCompletion}
    (h : send (buildRequest chat om) = .ok comp) (h2 : comp.choices = []) :
    executeAttempt send chat om = .error .indexError := by
  simp [executeAttempt, h, h2]

lemma executeAttempt_of_ok_invalid {send : Request → Except ApiError ChatCompletion}
    {chat : Chat} {om : Option OutputSchema} {comp : ChatCompletion}
    {c : Choice} {rest : List Choice}
    (h : send (buildRequest chat om) = .ok comp) (h2 : comp.choices = c :: rest)
    (h3 : contentTruthy c.message.content = false)
    (h4 : toolCallsTruthy c.message.tool_calls = false) :
    executeAttempt send chat om = .error .invalidResponse := by
  simp [executeAttempt, h, h2, h3, h4]

lemma executeAttempt_of_ok_valid {send : Request → Except ApiError ChatCompletion}
    {chat : Chat} {om : Option OutputSchema} {comp : ChatCompletion}
    {c : Choice} {rest : List Choice}
    (h : send (buildRequest chat om) = .ok comp) (h2 : comp.choices = c :: rest)
    (h3 : (contentTruthy c.message.content || toolCallsTruthy c.message.tool_calls) = true) :
    executeAttempt send chat om = .ok (okValue om comp c) := by
  cases om <;> simp [executeAttempt, okValue, h, h2, h3]

lemma backoffGo_fst_ok {f : Nat → Except ExecError ExecValue} :
    ∀ {fuel attempt : Nat} {v : ExecValue},
      (backoffGo f attempt fuel).1 = .ok v → ∃ k, f k = .ok v := by
  intro fuel
  induction fuel with
  | zero =>
    intro attempt v h
    simp only [backoffGo] at h
    exact ⟨attempt, h⟩
  | succ fuel ih =>
    intro attempt v h
    simp only [backoffGo] at h
    split at h
    · next w hw =>
      simp at h
      exact ⟨attempt, by rw [hw, h]⟩
    · next e he =>
      split at h
      · exact ih h
      · simp at h

lemma executeAttempt_ok_shape {send : Request → Except ApiError ChatCompletion}
    {chat : Chat} {om : Option OutputSchema} {v : ExecValue}
    (h : executeAttempt send chat om = .ok v) :
    (om = none → ∃ comp, v = ExecValue.envelope comp) ∧
    (om ≠ none → ∃ p, v = ExecValue.parsedObj p) := by
  unfold executeAttempt at h
  split at h
  · simp at h
  · next comp heq =>
    split at h
    · simp at h
    · next c rest hchoices =>
      split at h
      · cases om with
        | none =>
          simp at h
          exact ⟨fun _ => ⟨comp, h.symm⟩, fun hn => absurd rfl hn⟩
        | some s =>
          simp at h
          exact ⟨fun hn => by simp at hn, fun _ => ⟨c.message.parsed, h.symm⟩⟩
      · simp at h

/-- C1: for every call to execute, a successful result is the raw completion
envelope exactly when no output schema was supplied, and the parsed object of
the first choice exactly when a schema was supplied; the two shapes never
mix. -/
theorem execute_result_shape (transport : Transport) (chat : Chat)
    (output_model : Option OutputSchema) (v : ExecValue)
    (h : (execute transport chat output_model).1 = .ok v) :
    ((∃ comp, v = ExecValue.envelope comp) ↔ output_model = none) ∧
    ((∃ p, v = ExecValue.parsedObj p) ↔ output_model ≠ none) := by
  obtain ⟨k, hk⟩ := backoffGo_fst_ok h
  have hshape := executeAttempt_ok_shape hk
  cases output_model with
  | none =>
    obtain ⟨comp, rfl⟩ := hshape.1 rfl
    refine ⟨⟨fun _ => rfl, fun _ => ⟨comp, rfl⟩⟩, ?_⟩
    constructor
    · rintro ⟨p, hp⟩; cases hp
    · intro hn; exact absurd rfl hn
  | some s =>
    obtain ⟨p, rfl⟩ := hshape.2 (by simp)
    refine ⟨?_, ⟨fun _ => by simp, fun _ => ⟨p, rfl⟩⟩⟩
    constructor
    · rintro ⟨comp, hc⟩; cases hc
    · intro hn; cases hn

/-- Witness for C1: a call of `execute` without a schema on a transport that
succeeds, instantiating the shape theorem. -/
theorem execute_result_shape_witness :
    ((∃ comp, ExecValue.envelope compHello = ExecValue.envelope comp) ↔
      (none : Option OutputSchema) = none) ∧
    ((∃ p, ExecValue.envelope compHello = ExecValue.parsedObj p) ↔
      (none : Option OutputSchema) ≠ none) :=
  execute_result_shape transportOk chatEx none (ExecValue.envelope compHello) (by rfl)

lemma execute_first_ok {transport : Transport} {chat : Chat}
    {om : Option OutputSchema} {v : ExecValue}
    (h : executeAttempt (transport 1) chat om = .ok v) :
    execute transport chat om = (.ok v, 1) := by
  simp [execute, MAX_TRIES, backoffGo, h]

lemma execute_first_error_fatal {transport : Transport} {chat : Chat}
    {om : Option OutputSchema} {e : ExecError}
    (h : executeAttempt (transport 1) chat om = .error e)
    (hr : retryable e = false) :
    execute transport chat om = (.error e, 1) := by
  simp [execute, MAX_TRIES, backoffGo, h, hr]

lemma execute_three_retryable_errors {transport : Transport} {chat : Chat}
    {om : Option OutputSchema} {e1 e2 e3 : ExecError}
    (h1 : executeAttempt (transport 1) chat om = .error e1) (hr1 : retryable e1 = true)
    (h2 : executeAttempt (transport 2) chat om = .error e2) (hr2 : retryable e2 = true)
    (h3 : executeAttempt (transport 3) chat om = .error e3) :
    execute transport chat om = (.error e3, 3) := by
  simp [execute, MAX_TRIES, backoffGo, h1, hr1, h2, hr2, h3]

lemma execute_two_retryable_then_ok {transport : Transport} {chat : Chat}
    {om : Option OutputSchema} {e1 e2 : ExecError} {v : ExecValue}
    (h1 : executeAttempt (transport 1) chat om = .error e1) (hr1 : retryable e1 = true)
    (h2 : executeAttempt (transport 2) chat om = .error e2) (hr2 : retryable e2 = true)
    (h3 : executeAttempt (transport 3) chat om = .ok v) :
    execute transport chat om = (.ok v, 3) := by
  simp [execute, MAX_TRIES, backoffGo, h1, hr1, h2, hr2, h3]

/-- C2: a response whose first choice has falsy content and a falsy tool-call
list makes `execute` fail with the validation error (the spec's
`InvalidResponseError`, the source's `AssertionError`) after exactly one
transport attempt: the `backoff` decorator retries only rate-limit and
timeout errors, so the validation failure is never retried, on either the
schema or the no-schema path. -/
theorem execute_invalid_response_no_retry (transport : Transport) (chat : Chat)
    (output_model : Option OutputSchema) (comp : ChatCompletion)
    (c : Choice) (rest : List Choice)
    (hsend : transport 1 (buildRequest chat output_model) = .ok comp)
    (hchoices : comp.choices = c :: rest)
    (hcontent : contentTruthy c.message.content = false)
    (htools : toolCallsTruthy c.message.tool_calls = false) :
    execute transport chat output_model = (.error ExecError.invalidResponse, 1) :=
  execute_first_error_fatal
    (executeAttempt_of_ok_invalid hsend hchoices hcontent htools) rfl

/-- Witness for C2: a transport whose response has empty content and an
empty tool-call list yields the validation error on attempt 1. -/
theorem execute_invalid_response_no_retry_witness :
    execute transportEmptyMsg chatEx none = (.error ExecError.invalidResponse, 1) :=
  execute_invalid_response_no_retry transportEmptyMsg chatEx none compEmptyMsg
    { message := { content := some "", tool_calls := some [], parsed := none } } []
    (by rfl) (by rfl) (by rfl) (by rfl)

/-- C3: when the transport rate-limits on attempts 1, 2 and 3, `execute`
surfaces the rate-limit error after exactly 3 attempts.  The hypotheses
constrain only the first three attempts, so the conclusion holds for every
transport regardless of what a 4th call would return: no 4th attempt is ever
made. -/
theorem execute_rate_limit_exhausts_three (transport : Transport) (chat : Chat)
    (output_model : Option OutputSchema)
    (h1 : transport 1 (buildRequest chat output_model) = .error ApiError.rateLimit)
    (h2 : transport 2 (buildRequest chat output_model) = .error ApiError.rateLimit)
    (h3 : transport 3 (buildRequest chat output_model) = .error ApiError.rateLimit) :
    execute transport chat output_model = (.error (ExecError.api ApiError.rateLimit), 3) :=
  execute_three_retryable_errors
    (executeAttempt_of_error h1) rfl
    (executeAttempt_of_error h2) rfl
    (executeAttempt_of_error h3)

/-- Witness for C3: a transport that rate-limits every attempt. -/
theorem execute_rate_limit_exhausts_three_witness :
    execute transportAlwaysRL chatEx none = (.error (ExecError.api ApiError.rateLimit), 3) :=
  execute_rate_limit_exhausts_three transportAlwaysRL chatEx none rfl rfl rfl

/-- C4: when the transport fails with a rate-limit or timeout error on
attempts 1 and 2 and succeeds with a valid response on attempt 3, `execute`
returns the successful result and exactly 3 transport attempts are made. -/
theorem execute_retry_then_success (transport : Transport) (chat : Chat)
    (output_model : Option OutputSchema) (e1 e2 : ApiError)
    (comp : ChatCompletion) (c : Choice) (rest : List Choice)
    (he1 : e1 = ApiError.rateLimit ∨ e1 = ApiError.apiTimeout)
    (he2 : e2 = ApiError.rateLimit ∨ e2 = ApiError.apiTimeout)
    (h1 : transport 1 (buildRequest chat output_model) = .error e1)
    (h2 : transport 2 (buildRequest chat output_model) = .error e2)
    (h3 : transport 3 (buildRequest chat output_model) = .ok comp)
    (hchoices : comp.choices = c :: rest)
    (ht : (contentTruthy c.message.content || toolCallsTruthy c.message.tool_calls) = true) :
    execute transport chat output_model = (.ok (okValue output_model comp c), 3) := by
  have hr1 : retryable (.api e1) = true := by rcases he1 with rfl | rfl <;> rfl
  have hr2 : retryable (.api e2) = true := by rcases he2 with rfl | rfl <;> rfl
  exact execute_two_retryable_then_ok
    (executeAttempt_of_error h1) hr1
    (executeAttempt_of_error h2) hr2
    (executeAttempt_of_ok_valid h3 hchoices ht)

/-- Witness for C4: a transport that rate-limits attempts 1 and 2 and
succeeds on attempt 3 yields the envelope after exactly 3 attempts. -/
theorem execute_retry_then_success_witness :
    execute transportRLThenOk chatEx none = (.ok (ExecValue.envelope compHello), 3) :=
  execute_retry_then_success transportRLThenOk chatEx none
    ApiError.rateLimit ApiError.rateLimit compHello
    { message := { content := some "hello", tool_calls := none, parsed := none } } []
    (Or.inl rfl) (Or.inl rfl) (by rfl) (by rfl) (by rfl) (by rfl) (by rfl)

/-- C5: a transport error that is neither a rate-limit nor a timeout
propagates to the caller on the first attempt, with zero retries. -/
theorem execute_other_error_no_retry (transport : Transport) (chat : Chat)
    (output_model : Option OutputSchema) (msg : String)
    (h : transport 1 (buildRequest chat output_model) = .error (ApiError.other msg)) :
    execute transport chat output_model = (.error (ExecError.api (ApiError.other msg)), 1) :=
  execute_first_error_fatal (executeAttempt_of_error h) rfl

/-- Witness for C5: a malformed-request transport error surfaces at once. -/
theorem execute_other_error_no_retry_witness :
    execute transportBadRequest chatEx none
      = (.error (ExecError.api (ApiError.other "bad request")), 1) :=
  execute_other_error_no_retry transportBadRequest chatEx none "bad request" rfl

/-- C10: a response with zero choices makes the validation step fail with
the `IndexError` of `choices[0]` on the first attempt, which is a different
failure from the content/tool-call check's `InvalidResponseError`: the
check is only well defined when at least one choice is present. -/
theorem execute_empty_choices_index_error (transport : Transport) (chat : Chat)
    (output_model : Option OutputSchema) (comp : ChatCompletion)
    (hsend : transport 1 (buildRequest chat output_model) = .ok comp)
    (hempty : comp.choices = []) :
    execute transport chat output_model = (.error ExecError.indexError, 1) ∧
      ExecError.indexError ≠ ExecError.invalidResponse :=
  ⟨execute_first_error_fatal (executeAttempt_of_ok_empty hsend hempty) rfl,
    by simp⟩

/-- Witness for C10: a transport returning an empty choice list. -/
theorem execute_empty_choices_index_error_witness :
    execute transportNoChoices chatEx none = (.error ExecError.indexError, 1) ∧
      ExecError.indexError ≠ ExecError.invalidResponse :=
  execute_empty_choices_index_error transportNoChoices chatEx none compNoChoices rfl rfl

/-- The property claimed of the outgoing request: every field, the response
format included, equals the corresponding value carried in the caller's
conversation object. -/
def requestAllFromChat (chat : Chat) (req : Request) : Prop :=
  req.messages = chat.messages ∧
  req.model = chat.config.model ∧
  req.frequency_penalty = chat.config.frequency_penalty ∧
  req.logit_bias = chat.config.logit_bias ∧
  req.max_tokens = chat.config.max_tokens ∧
  req.presence_penalty = chat.config.presence_penalty ∧
  req.response_format = RespFormat.hint chat.config.response_format ∧
  req.seed = chat.config.seed ∧
  req.temperature = chat.config.temperature ∧
  req.top_p = chat.config.top_p ∧
  req.tools = chat.config.tools ∧
  req.tool_choice = chat.config.tool_choice ∧
  req.user = chat.config.user

/-- The amended property: every field other than the response format equals
the conversation's value, and the response format is the conversation's hint
without a schema, the supplied schema itself with one — nothing defaulted,
nothing merged. -/
def requestFromCallerParams (chat : Chat) (output_model : Option OutputSchema)
    (req : Request) : Prop :=
  req.messages = chat.messages ∧
  req.model = chat.config.model ∧
  req.frequency_penalty = chat.config.frequency_penalty ∧
  req.logit_bias = chat.config.logit_bias ∧
  req.max_tokens = chat.config.max_tokens ∧
  req.presence_penalty = chat.config.presence_penalty ∧
  req.response_format = (match output_model with
    | some m => RespFormat.schema m
    | none => RespFormat.hint chat.config.response_format) ∧
  req.seed = chat.config.seed ∧
  req.temperature = chat.config.temperature ∧
  req.top_p = chat.config.top_p ∧
  req.tools = chat.config.tools ∧
  req.tool_choice = chat.config.tool_choice ∧
  req.user = chat.config.user

/-- C6 counterexample: on a call with an output schema, the request's
response format is the schema, not the conversation's response-format hint,
so not every request parameter is the conversation's value. -/
theorem buildRequest_not_all_from_chat :
    ¬ requestAllFromChat chatEx (buildRequest chatEx (some "WeatherModel")) := by
  intro h
  exact absurd h.2.2.2.2.2.2.1 (by simp [buildRequest, chatEx, cfgEx])

/-- C6 amended: every request parameter other than the response format is
exactly the conversation's value; the response format is the conversation's
hint when no schema is supplied and the supplied schema when one is; the
adapter introduces no defaults and merges nothing. -/
theorem buildRequest_from_caller_params (chat : Chat)
    (output_model : Option OutputSchema) :
    requestFromCallerParams chat output_model (buildRequest chat output_model) := by
  cases output_model <;>
    exact ⟨rfl, rfl, rfl, rfl, rfl, rfl, rfl, rfl, rfl, rfl, rfl, rfl, rfl⟩

/-- C7 helper: the state-passing retry loop returns the conversation object
unchanged and computes the same outcome as the pure loop. -/
lemma backoffGoSt_spec (transport : Transport) (om : Option OutputSchema) :
    ∀ (fuel : Nat) (chat : Chat) (attempt : Nat),
      backoffGoSt transport om chat attempt fuel =
        (backoffGo (fun a => executeAttempt (transport a) chat om) attempt fuel, chat) := by
  intro fuel
  induction fuel with
  | zero => intro chat attempt; rfl
  | succ fuel ih =>
    intro chat attempt
    simp only [backoffGoSt, backoffGo]
    cases h : executeAttempt (transport attempt) chat om with
    | ok v => simp
    | error e =>
      by_cases hr : (retryable e && fuel != 0) = true
      · simp [hr, ih]
      · simp [hr]

/-- C7: the caller's conversation object is unchanged after the call, on
success and on failure alike, and the outcome is a function of the inputs
alone — no local state is mutated and nothing is cached across calls. -/
theorem executeSt_frame (transport : Transport) (chat : Chat)
    (output_model : Option OutputSchema) :
    (executeSt transport chat output_model).2 = chat ∧
      (executeSt transport chat output_model).1 = execute transport chat output_model := by
  unfold executeSt execute
  rw [backoffGoSt_spec]
  exact ⟨rfl, rfl⟩

/-- C8: there is a call of `execute` with a schema supplied that returns no
object at all: a response whose first choice passes validation through its
tool calls but carries no `parsed` value makes `execute` return the `None`
of the `parsed` field, as the declared `Optional` return type allows. -/
theorem execute_schema_parsed_none_exists :
    ∃ (transport : Transport) (chat : Chat) (s : OutputSchema),
      execute transport chat (some s) = (.ok (ExecValue.parsedObj none), 1) :=
  ⟨transportToolsNoParsed, chatEx, "WeatherModel", by rfl⟩

/-- C9: with a schema supplied, the request's response format is the schema
and in particular not the conversation's own response-format hint; without a
schema, the conversation's hint is sent unchanged. -/
theorem buildRequest_response_format (chat : Chat) (s : OutputSchema) :
    (buildRequest chat (some s)).response_format = RespFormat.schema s ∧
    (buildRequest chat (some s)).response_format ≠ RespFormat.hint chat.config.response_format ∧
    (buildRequest chat none).response_format = RespFormat.hint chat.config.response_format := by
  refine ⟨rfl, ?_, rfl⟩
  simp [buildRequest]

end OpenAIStructuredLLM
